import Mathlib

set_option maxHeartbeats 2000000
set_option maxRecDepth 10000

/-!
Shallow embedding of the polyhedron-operators crate (`src/lib.rs`).

Modelling conventions:
* `Float` (`f32`) values are modelled as real numbers: point coordinates live in
  `ℝ`; operator parameters (`ratio`, `height`) are rationals coerced into `ℝ`.
* `Index` (`u32`) and `usize` are modelled as `ℕ`; an `Edge` (`[Index; 2]`) as
  `ℕ × ℕ`; a `Face` (`Vec<Index>`) as `List ℕ`.
* Rust panic sites (`unwrap()`, out-of-range indexing `points[i]`,
  `face_index[0]` on an empty list) are modelled with `Option.getD` /
  `List.getD` / `List.headD` and a default value; every theorem below only
  exercises inputs on which the source does not panic, so the defaults are
  never observed.
* `f32::max(NAN, x) = x`, so the source's `reduce(|| Float::NAN, Float::max)`
  computes the maximum of a nonempty list; for the empty list the source
  yields `NaN` and the subsequent `NaN`-comparisons are false.  We return `0`
  for the empty list; `0 / 0 = 0` in `ℝ` and `|0 - 1| < 0.1` is false, which
  matches the `NaN` rejection behaviour.
* Real-number comparisons performed by the source (`<` on `f32`) are modelled
  by `rltB` below, a classically-defined `Bool`.
-/

abbrev Pt := ℝ × ℝ × ℝ

def pzero : Pt := ((0 : ℝ), (0 : ℝ), (0 : ℝ))

noncomputable def padd (a b : Pt) : Pt := (a.1 + b.1, a.2.1 + b.2.1, a.2.2 + b.2.2)

noncomputable def psub (a b : Pt) : Pt := (a.1 - b.1, a.2.1 - b.2.1, a.2.2 - b.2.2)

noncomputable def psmul (s : ℝ) (a : Pt) : Pt := (s * a.1, s * a.2.1, s * a.2.2)

/-- `ultraviolet`'s cross product. -/
noncomputable def pcross (a b : Pt) : Pt :=
  (a.2.1 * b.2.2 - a.2.2 * b.2.1, a.2.2 * b.1 - a.1 * b.2.2, a.1 * b.2.1 - a.2.1 * b.1)

noncomputable def mag_sq (a : Pt) : ℝ := a.1 * a.1 + a.2.1 * a.2.1 + a.2.2 * a.2.2

/-- `Vec3::mag`. -/
noncomputable def mag (a : Pt) : ℝ := Real.sqrt (mag_sq a)

/-- `Vec3::normalized`: the vector divided by its magnitude. -/
noncomputable def pnormalized (a : Pt) : Pt := psmul (mag a)⁻¹ a

/-- A strict `f32` comparison, as a (classical) `Bool`. -/
noncomputable def rltB (a b : ℝ) : Bool := @decide (a < b) (Classical.propDecidable _)

/-- `orthogonal(v0, v1, v2) = (v1 - v0) × (v2 - v1)`. -/
noncomputable def orthogonal (v0 v1 v2 : Pt) : Pt := pcross (psub v1 v0) (psub v2 v1)

/-- `are_collinear`: squared magnitude of `orthogonal` below `0.0001`. -/
noncomputable def are_collinearB (v0 v1 v2 : Pt) : Bool :=
  rltB (mag_sq (orthogonal v0 v1 v2)) (1 / 10000)

/-- `index_of`: position of the first occurrence of `element` in `list`. -/
def index_of {α : Type} [DecidableEq α] (element : α) : List α → Option ℕ
  | [] => none
  | x :: xs => if x = element then some 0 else (index_of element xs).map (· + 1)

/-- `ordered_face_edges(face)`: the `face.len()` directed cyclic edges
`(face[i], face[(i+1) % n])`. -/
def ordered_face_edges (face : List ℕ) : List (ℕ × ℕ) :=
  (List.range face.length).map
    (fun i => (face.getD i 0, face.getD ((i + 1) % face.length) 0))

/-- `distinct_edge`: canonical min-first form of an edge. -/
def distinct_edge (e : ℕ × ℕ) : ℕ × ℕ := if e.1 < e.2 then e else (e.2, e.1)

/-- `distinct_face_edges(face)`: the cyclic edges of `face`, each put min-first.
(The source takes the first `face.len()` windows of the cycled iterator, which
are exactly the `face.len()` cyclic pairs.) -/
def distinct_face_edges (face : List ℕ) : List (ℕ × ℕ) :=
  (List.range face.length).map
    (fun i =>
      let t0 := face.getD i 0
      let t1 := face.getD ((i + 1) % face.length) 0
      if t0 < t1 then (t0, t1) else (t1, t0))

/-- Per-face part of `distinct_edges`: models
`face.iter().cycle().tuple_windows().filter(|t| t.0 < t.1).map(..).take(face.len())` —
the ascending cyclic pairs, cycled, truncated to `face.len()` entries.  (If no
cyclic pair ascends — an all-equal degenerate cycle — the Rust iterator would
never produce `face.len()` items; we return `[]` there.) -/
def ascending_cycle_edges (face : List ℕ) : List (ℕ × ℕ) :=
  let per := (ordered_face_edges face).filter (fun t => t.1 < t.2)
  ((List.replicate face.length per).flatten).take face.length

/-- `Itertools::unique`: first occurrences, input order preserved. -/
def unique_first_aux {α : Type} [DecidableEq α] (seen : List α) : List α → List α
  | [] => []
  | x :: xs =>
    if x ∈ seen then unique_first_aux seen xs
    else x :: unique_first_aux (x :: seen) xs

def unique_first {α : Type} [DecidableEq α] (l : List α) : List α := unique_first_aux [] l

/-- `distinct_edges(faces)`: ascending cyclic pairs of every face, deduplicated. -/
def distinct_edges (faces : List (List ℕ)) : List (ℕ × ℕ) :=
  unique_first (faces.flatMap ascending_cycle_edges)

/-- `vertex_faces(v, faces)`: the faces containing `v`, in input order. -/
def vertex_faces (vertex_number : ℕ) (face_index : List (List ℕ)) : List (List ℕ) :=
  face_index.filter (fun face => decide (vertex_number ∈ face))

/-- `face_with_edge(edge, faces)`: the concatenation of all faces whose
`ordered_face_edges` contain the directed `edge` (the source filters then
flattens; on a manifold mesh exactly one face matches). -/
def face_with_edge (edge : ℕ × ℕ) (faces : List (List ℕ)) : List ℕ :=
  (faces.filter (fun face => decide (edge ∈ ordered_face_edges face))).flatten

/-- `ordered_vertex_edges_recurse`, with the source's counter `k` replaced by
the structurally decreasing fuel `vfaces.len() - k` (the source recurses while
`k < vfaces.len()`). -/
def ordered_vertex_edges_recurse (v : ℕ) (vfaces : List (List ℕ)) :
    List ℕ → ℕ → List (ℕ × ℕ)
  | _, 0 => []
  | face, fuel + 1 =>
    let i := (index_of v face).getD 0
    let j := (i + face.length - 1) % face.length
    let edge := (v, face.getD j 0)
    edge :: ordered_vertex_edges_recurse v vfaces (face_with_edge edge vfaces) fuel

/-- `ordered_vertex_edges(v, vfaces)`. -/
def ordered_vertex_edges (v : ℕ) (vfaces : List (List ℕ)) : List (ℕ × ℕ) :=
  match vfaces with
  | [] => []
  | face :: _ =>
    let i := (index_of v face).getD 0
    let j := (i + face.length - 1) % face.length
    let edge := (v, face.getD j 0)
    edge :: ordered_vertex_edges_recurse v vfaces (face_with_edge edge vfaces) (vfaces.length - 1)

/-- `ordered_vertex_faces_recurse`, fueled like `ordered_vertex_edges_recurse`.
(The source's `(i - 1 + cface.len()) % cface.len()` on `i32` equals
`(i + cface.len() - 1) % cface.len()` on `ℕ` since `0 ≤ i`.) -/
def ordered_vertex_faces_recurse (v : ℕ) (face_index : List (List ℕ)) :
    List ℕ → ℕ → List (List ℕ)
  | _, 0 => []
  | cface, fuel + 1 =>
    let i := (index_of v cface).getD 0
    let j := (i + cface.length - 1) % cface.length
    let edge := (v, cface.getD j 0)
    let nface := face_with_edge edge face_index
    nface :: ordered_vertex_faces_recurse v face_index nface fuel

/-- `ordered_vertex_faces(v, face_index)` (the source indexes `face_index[0]`,
panicking on an empty list; we use `headD`). -/
def ordered_vertex_faces (v : ℕ) (face_index : List (List ℕ)) : List (List ℕ) :=
  face_index.headD [] ::
    ordered_vertex_faces_recurse v face_index (face_index.headD []) (face_index.length - 1)

/-- `as_points(f, points)` (the source panics on an out-of-range index). -/
noncomputable def as_points (f : List ℕ) (points : List Pt) : List Pt :=
  f.map (fun index => points.getD index pzero)

/-- `edge_length(edge, points)`. -/
noncomputable def edge_length (edge : ℕ × ℕ) (points : List Pt) : ℝ :=
  mag (psub (points.getD edge.1 pzero) (points.getD edge.2 pzero))

/-- `face_edges(face, points)`: the cyclic edge lengths of `face`. -/
noncomputable def face_edges (face : List ℕ) (points : List Pt) : List ℝ :=
  (ordered_face_edges face).map (fun edge => edge_length edge points)

/-- The source's `reduce(|| Float::NAN, Float::max)` over a list (see the
header comment for the empty-list convention). -/
noncomputable def reduce_float_max (l : List ℝ) : ℝ :=
  match l with
  | [] => 0
  | x :: xs => xs.foldl max x

noncomputable def reduce_float_min (l : List ℝ) : ℝ :=
  match l with
  | [] => 0
  | x :: xs => xs.foldl min x

/-- `face_irregular_faces_onlyity(face, points)` (the source's name; a botched
rename of "face irregularity"): longest edge length divided by shortest. -/
noncomputable def face_irregular_faces_onlyity (face : List ℕ) (points : List Pt) : ℝ :=
  reduce_float_max (face_edges face points) / reduce_float_min (face_edges face points)

/-- `selected_face(face, face_arity)`. -/
def selected_face (face : List ℕ) (face_arity : Option (List ℕ)) : Bool :=
  match face_arity with
  | none => true
  | some arity => arity.contains face.length

/-- `centroid` / `centroid_ref`: left fold of the points divided by the count
(`0` for an empty list, matching the `NaN` convention above). -/
noncomputable def centroid (points : List Pt) : Pt :=
  psmul ((points.length : ℝ))⁻¹ (points.foldl padd pzero)

/-- `face_normal(points)`: average of the negated normalized corner cross
products over non-collinear corners; direction-to-centroid fallback for a
totally degenerate face.  (The source wraps the result in `Some` and every
call site unwraps it immediately.) -/
noncomputable def face_normal (points : List Pt) : Pt :=
  let triples := (List.range points.length).map
    (fun i => (points.getD i pzero,
               points.getD ((i + 1) % points.length) pzero,
               points.getD ((i + 2) % points.length) pzero))
  let considered := triples.filter (fun c => !(are_collinearB c.1 c.2.1 c.2.2))
  let normal := considered.foldl
    (fun acc c => psub acc (pnormalized (orthogonal c.1 c.2.1 c.2.2))) pzero
  if considered.length = 0 then pnormalized (centroid points)
  else psmul ((considered.length : ℝ))⁻¹ normal

/-- `vertex_ids_ref` / `vertex_ids_ref_ref`: assign index `offset + i` to the
`i`-th (face-)keyed entry. -/
noncomputable def vertex_ids (entries : List (List ℕ × Pt)) (offset : ℕ) :
    List (List ℕ × ℕ) :=
  entries.enum.map (fun p => (p.2.1, p.1 + offset))

/-- `vertex_ids_edge_ref_ref`: same, for edge-keyed entries. -/
noncomputable def vertex_ids_edge (entries : List ((ℕ × ℕ) × Pt)) (offset : ℕ) :
    List ((ℕ × ℕ) × ℕ) :=
  entries.enum.map (fun p => (p.2.1, p.1 + offset))

/-- `vertex(key, entries)`: first entry with this face key. -/
def vertex (key : List ℕ) (entries : List (List ℕ × ℕ)) : Option ℕ :=
  (entries.find? (fun f => decide (key = f.1))).map (·.2)

/-- `vertex_edge(key, entries)`: first entry with this edge key. -/
def vertex_edge (key : ℕ × ℕ) (entries : List ((ℕ × ℕ) × ℕ)) : Option ℕ :=
  (entries.find? (fun f => decide (key = f.1))).map (·.2)

/-- `vertex_values` / `vertex_values_as_ref`. -/
noncomputable def vertex_values {α : Type} (entries : List (α × Pt)) : List Pt :=
  entries.map (·.2)

/-- The mesh: `Polyhedron { points, face_index, face_set_index, name }`. -/
structure Polyhedron where
  points : List Pt
  face_index : List (List ℕ)
  face_set_index : List (List ℕ)
  name : String

/-- `append_new_face_set(size)`: appends the index range
`face_index.len() .. face_index.len() + size` as one new `FaceSet`. -/
def Polyhedron.append_new_face_set (p : Polyhedron) (size : ℕ) : Polyhedron :=
  { p with face_set_index :=
      p.face_set_index ++ [(List.range size).map (fun i => p.face_index.length + i)] }

/-- `points_to_faces(mesh)`: one face per old vertex — its ordered ring of
faces, translated to face indices. -/
def Polyhedron.points_to_faces (p : Polyhedron) : List (List ℕ) :=
  (List.range p.points.length).map (fun vertex_number =>
    (ordered_vertex_faces vertex_number (vertex_faces vertex_number p.face_index)).map
      (fun original_face => (index_of original_face p.face_index).getD 0))

/-- `to_edges()`. -/
def Polyhedron.to_edges (p : Polyhedron) : List (ℕ × ℕ) := distinct_edges p.face_index

/-- The `clamped` crate's `r.clamped(0.0, 1.0)`. -/
def clamped01 (r : ℚ) : ℚ := if r < 0 then 0 else if 1 < r then 1 else r

/-- `format_vec`. -/
def format_vec (v : List ℕ) : String :=
  match v with
  | [] => ""
  | [x] => toString x
  | x :: xs => "[" ++ toString x ++ String.join (xs.map (fun i => "," ++ toString i)) ++ "]"

/-- Round to nearest integer, ties to even (the rounding used by Rust float
formatting, on the exact value). -/
def round_half_even (x : ℚ) : ℤ :=
  let f := ⌊x⌋
  if x - f < 1 / 2 then f
  else if (1 / 2 : ℚ) < x - f then f + 1
  else if f % 2 = 0 then f else f + 1

def fmt2_nonneg (q : ℚ) : String :=
  let n := (round_half_even (100 * q)).toNat
  toString (n / 100) ++ "." ++ (if n % 100 < 10 then "0" ++ toString (n % 100) else toString (n % 100))

/-- Model of Rust's `{:.2}` formatting of a float parameter: two decimals.
(On an `f32` the rounding acts on the binary value, which can differ from the
written decimal in the last digit; no theorem below depends on the digits.) -/
def fmt2 (q : ℚ) : String := if q < 0 then "-" ++ fmt2_nonneg (-q) else fmt2_nonneg q

/-- Optional-parameter formatting `if let Some(x) = x { write!("{:.2}", x) }`. -/
def fmt2_opt (q : Option ℚ) : String :=
  match q with
  | some r => fmt2 r
  | none => ""

/-- `Polyhedron::ambo(ratio, change_name)`. -/
noncomputable def Polyhedron.ambo (p : Polyhedron) (ratio : Option ℚ) (change_name : Bool) :
    Polyhedron :=
  let ratio_ : ℚ := match ratio with | some r => clamped01 r | none => 1 / 2
  let edges := distinct_edges p.face_index
  let points : List ((ℕ × ℕ) × Pt) := edges.map (fun edge =>
    (edge, padd (psmul (ratio_ : ℝ) (p.points.getD edge.1 pzero))
                (psmul ((1 - ratio_ : ℚ) : ℝ) (p.points.getD edge.2 pzero))))
  let new_ids := vertex_ids_edge points 0
  let face_index1 : List (List ℕ) := p.face_index.map (fun face =>
    (distinct_face_edges face).filterMap (fun edge => vertex_edge edge new_ids))
  let face_index2 : List (List ℕ) := (List.range p.points.length).map (fun vertex_number =>
    (ordered_vertex_edges vertex_number (vertex_faces vertex_number p.face_index)).map
      (fun ve => (vertex_edge (distinct_edge ve) new_ids).getD 0))
  let face_index := face_index1 ++ face_index2
  let p1 := p.append_new_face_set face_index.length
  { p1 with
    face_index := face_index
    points := vertex_values points
    name := if change_name then "a" ++ fmt2_opt ratio ++ p.name else p.name }

/-- `Polyhedron::dual(change_name)`. -/
noncomputable def Polyhedron.dual (p : Polyhedron) (change_name : Bool) : Polyhedron :=
  let new_points := p.face_index.map (fun face => centroid (as_points face p.points))
  { p with
    face_index := p.points_to_faces
    points := new_points
    name := if change_name then "d" ++ p.name else p.name }

/-- The face filter of `kis`.  NOTE: the source reads
`selected_face(..) && !regular_faces_only || (irregularity test)`, and Rust's
`&&` binds tighter than `||`, so this is
`(selected && !regular_faces_only) || regular` — embedded verbatim. -/
noncomputable def kis_filter (points : List Pt) (face_arity : Option (List ℕ))
    (regular_faces_only : Bool) (face : List ℕ) : Bool :=
  (selected_face face face_arity && !regular_faces_only)
    || rltB |face_irregular_faces_onlyity face points - 1| (1 / 10)

/-- The faces `kis` selects for subdivision. -/
noncomputable def kis_selected (p : Polyhedron) (face_arity : Option (List ℕ))
    (regular_faces_only : Bool) : List (List ℕ) :=
  p.face_index.filter (kis_filter p.points face_arity regular_faces_only)

/-- `Polyhedron::kis(height, face_arity, regular_faces_only, change_name)`. -/
noncomputable def Polyhedron.kis (p : Polyhedron) (height : Option ℚ)
    (face_arity : Option (List ℕ)) (regular_faces_only change_name : Bool) : Polyhedron :=
  let height_ : ℚ := height.getD 0
  let new_points : List (List ℕ × Pt) :=
    (kis_selected p face_arity regular_faces_only).map (fun face =>
      (face, padd (centroid (as_points face p.points))
                  (psmul (height_ : ℝ) (face_normal (as_points face p.points)))))
  let new_ids := vertex_ids new_points p.points.length
  { p with
    points := p.points ++ vertex_values new_points
    face_index := p.face_index.flatMap (fun face =>
      match vertex face new_ids with
      | some c => (List.range face.length).map (fun j =>
          [face.getD j 0, face.getD ((j + 1) % face.length) 0, c])
      | none => [face])
    name := if change_name then
        "k" ++ fmt2_opt height
          ++ (match face_arity with
              | some fa => "," ++ (format_vec fa).take 2
              | none => "")
          ++ p.name
      else p.name }

/-- `Polyhedron::chamfer(ratio, change_name)`. -/
noncomputable def Polyhedron.chamfer (p : Polyhedron) (ratio : Option ℚ) (change_name : Bool) :
    Polyhedron :=
  let ratio_ : ℚ := match ratio with | some r => clamped01 r | none => 1 / 2
  let new_points : List (List ℕ × Pt) := p.face_index.flatMap (fun face =>
    let face_points := as_points face p.points
    let c := centroid face_points
    (List.range face.length).map (fun j =>
      (face ++ [face.getD j 0],
       padd (face_points.getD j pzero)
            (psmul (ratio_ : ℝ) (psub c (face_points.getD j pzero))))))
  let new_ids := vertex_ids new_points p.points.length
  let face_index1 : List (List ℕ) := p.face_index.map (fun face =>
    face.map (fun vertex_key => (vertex (face ++ [vertex_key]) new_ids).getD 0))
  let face_index2 : List (List ℕ) := p.face_index.flatMap (fun face =>
    ((List.range face.length).filter
        (fun j => face.getD j 0 < face.getD ((j + 1) % face.length) 0)).map
      (fun j =>
        let a := face.getD j 0
        let b := face.getD ((j + 1) % face.length) 0
        let opposite_face := face_with_edge (b, a) p.face_index
        [a,
         (vertex (opposite_face ++ [a]) new_ids).getD 0,
         (vertex (opposite_face ++ [b]) new_ids).getD 0,
         b,
         (vertex (face ++ [b]) new_ids).getD 0,
         (vertex (face ++ [a]) new_ids).getD 0]))
  let face_index := face_index1 ++ face_index2
  let p1 := p.append_new_face_set face_index.length
  { p1 with
    face_index := face_index
    points := (p.points.map (fun point => psmul ((15 / 10 * ratio_ : ℚ) : ℝ) point))
      ++ vertex_values new_points
    name := if change_name then "c" ++ fmt2_opt ratio ++ p.name else p.name }

/-- `Polyhedron::gyro(ratio, height, change_name)`.  The face-keyed and
edge-keyed new points share one table (the source keys both by `&[u32]`
slices); an edge key is the two-element list `[a, b]`. -/
noncomputable def Polyhedron.gyro (p : Polyhedron) (ratio height : Option ℚ)
    (change_name : Bool) : Polyhedron :=
  let ratio_ : ℚ := match ratio with | some r => clamped01 r | none => 1 / 3
  let height_ : ℚ := height.getD 0
  let new_points1 : List (List ℕ × Pt) := p.face_index.map (fun face =>
    let fp := as_points face p.points
    (face, padd (pnormalized (centroid fp)) (psmul (height_ : ℚ) (face_normal fp))))
  let edges := p.to_edges
  let new_points2 : List (List ℕ × Pt) := edges.flatMap (fun edge =>
    let ep0 := p.points.getD edge.1 pzero
    let ep1 := p.points.getD edge.2 pzero
    [([edge.1, edge.2], padd ep0 (psmul (ratio_ : ℚ) (psub ep1 ep0))),
     ([edge.2, edge.1], padd ep1 (psmul (ratio_ : ℚ) (psub ep0 ep1)))])
  let new_points := new_points1 ++ new_points2
  let new_ids := vertex_ids new_points p.points.length
  { p with
    points := p.points ++ vertex_values new_points
    face_index := p.face_index.flatMap (fun face =>
      (List.range face.length).map (fun j =>
        let a := face.getD j 0
        let b := face.getD ((j + 1) % face.length) 0
        let z := face.getD ((j + face.length - 1) % face.length) 0
        let eab := (vertex [a, b] new_ids).getD 0
        let eza := (vertex [z, a] new_ids).getD 0
        let eaz := (vertex [a, z] new_ids).getD 0
        let c := (vertex face new_ids).getD 0
        [a, eab, c, eza, eaz]))
    name := if change_name then
        "g" ++ fmt2_opt ratio
          ++ (match height with | some h => "," ++ fmt2 h | none => "")
          ++ p.name
      else p.name }

/-- `Polyhedron::propellor(ratio, change_name)`. -/
noncomputable def Polyhedron.propellor (p : Polyhedron) (ratio : Option ℚ)
    (change_name : Bool) : Polyhedron :=
  let ratio_ : ℚ := match ratio with | some r => clamped01 r | none => 1 / 3
  let edges := p.to_edges
  let new_points : List ((ℕ × ℕ) × Pt) := edges.flatMap (fun edge =>
    let ep0 := p.points.getD edge.1 pzero
    let ep1 := p.points.getD edge.2 pzero
    [(edge, padd ep0 (psmul (ratio_ : ℚ) (psub ep1 ep0))),
     ((edge.2, edge.1), padd ep1 (psmul (ratio_ : ℚ) (psub ep0 ep1)))])
  let new_ids := vertex_ids_edge new_points p.points.length
  let face_index1 : List (List ℕ) := p.face_index.map (fun face =>
    (List.range face.length).map (fun j =>
      (vertex_edge (face.getD j 0, face.getD ((j + 1) % face.length) 0) new_ids).getD 0))
  let face_index2 : List (List ℕ) := p.face_index.flatMap (fun face =>
    (List.range face.length).map (fun j =>
      let a := face.getD j 0
      let b := face.getD ((j + 1) % face.length) 0
      let z := face.getD ((j + face.length - 1) % face.length) 0
      let eab := (vertex_edge (a, b) new_ids).getD 0
      let eba := (vertex_edge (b, a) new_ids).getD 0
      let eza := (vertex_edge (z, a) new_ids).getD 0
      [a, eba, eab, eza]))
  { p with
    face_index := face_index1 ++ face_index2
    points := p.points ++ vertex_values new_points
    name := if change_name then "p" ++ fmt2_opt ratio ++ p.name else p.name }

/-- `Polyhedron::quinto(height, change_name)` (negative heights floored at 0;
edge keys are the two-element list `[a, b]`, corner keys `face ++ [i]` with
`i` the corner position). -/
noncomputable def Polyhedron.quinto (p : Polyhedron) (height : Option ℚ)
    (change_name : Bool) : Polyhedron :=
  let height_ : ℚ := match height with
    | some h => if h < 0 then 0 else h
    | none => 1 / 2
  let new_points_edges : List (List ℕ × Pt) := p.to_edges.map (fun edge =>
    ([edge.1, edge.2],
     psmul (height_ : ℚ) (padd (p.points.getD edge.1 pzero) (p.points.getD edge.2 pzero))))
  let new_points_corners : List (List ℕ × Pt) := p.face_index.flatMap (fun face =>
    let edge_points := as_points face p.points
    let c := centroid edge_points
    (List.range face.length).map (fun i =>
      (face ++ [i],
       psmul ((3 : ℝ))⁻¹
         (padd (padd (edge_points.getD i pzero)
                     (edge_points.getD ((i + 1) % face.length) pzero)) c))))
  let new_points := new_points_edges ++ new_points_corners
  let new_ids := vertex_ids new_points p.points.length
  let face_index1 : List (List ℕ) := p.face_index.map (fun face =>
    (List.range face.length).map (fun face_vertex =>
      (vertex (face ++ [face_vertex]) new_ids).getD 0))
  let face_index2 : List (List ℕ) := p.face_index.flatMap (fun face =>
    (List.range face.length).map (fun i =>
      let v := face.getD i 0
      let e0 := (face.getD ((i + face.length - 1) % face.length) 0, face.getD i 0)
      let e1 := (face.getD i 0, face.getD ((i + 1) % face.length) 0)
      let e0p := (vertex [(distinct_edge e0).1, (distinct_edge e0).2] new_ids).getD 0
      let e1p := (vertex [(distinct_edge e1).1, (distinct_edge e1).2] new_ids).getD 0
      let iv0 := (vertex (face ++ [(i + face.length - 1) % face.length]) new_ids).getD 0
      let iv1 := (vertex (face ++ [i]) new_ids).getD 0
      [v, e1p, iv1, iv0, e0p]))
  { p with
    face_index := face_index1 ++ face_index2
    points := p.points ++ vertex_values new_points
    name := if change_name then "q" ++ fmt2_opt height ++ p.name else p.name }

/-- `Polyhedron::reverse()`. -/
def Polyhedron.reverse (p : Polyhedron) : Polyhedron :=
  { p with face_index := p.face_index.map List.reverse }

/-- `Polyhedron::reflect(change_name)`. -/
noncomputable def Polyhedron.reflect (p : Polyhedron) (change_name : Bool) : Polyhedron :=
  let p1 := { p with points := p.points.map (fun v : Pt => (v.1, -v.2.1, v.2.2)) }
  let p2 := p1.reverse
  { p2 with name := if change_name then "r" ++ p.name else p.name }

/-- `Polyhedron::whirl(ratio, height, change_name)` (all keys are `Vec<u32>`:
corner keys `face ++ [face[j]]`, edge keys the two-element lists). -/
noncomputable def Polyhedron.whirl (p : Polyhedron) (ratio height : Option ℚ)
    (change_name : Bool) : Polyhedron :=
  let ratio_ : ℚ := match ratio with | some r => clamped01 r | none => 1 / 3
  let height_ : ℚ := height.getD 0
  let new_points1 : List (List ℕ × Pt) := p.face_index.flatMap (fun face =>
    let face_points := as_points face p.points
    let center := padd (centroid face_points)
      (psmul (height_ : ℚ) (face_normal face_points))
    (List.range face.length).map (fun j =>
      let middle := padd (face_points.getD j pzero)
        (psmul (ratio_ : ℚ)
          (psub (face_points.getD ((j + 1) % face.length) pzero)
                (face_points.getD j pzero)))
      (face ++ [face.getD j 0], padd middle (psmul (ratio_ : ℚ) (psub center middle)))))
  let new_points2 : List (List ℕ × Pt) := p.to_edges.flatMap (fun edge =>
    let ep0 := p.points.getD edge.1 pzero
    let ep1 := p.points.getD edge.2 pzero
    [([edge.1, edge.2], padd ep0 (psmul (ratio_ : ℚ) (psub ep1 ep0))),
     ([edge.2, edge.1], padd ep1 (psmul (ratio_ : ℚ) (psub ep0 ep1)))])
  let new_points := new_points1 ++ new_points2
  let new_ids := vertex_ids new_points p.points.length
  let face_index1 : List (List ℕ) := p.face_index.flatMap (fun face =>
    (List.range face.length).map (fun j =>
      let a := face.getD j 0
      let b := face.getD ((j + 1) % face.length) 0
      let c := face.getD ((j + 2) % face.length) 0
      let eab := (vertex [a, b] new_ids).getD 0
      let eba := (vertex [b, a] new_ids).getD 0
      let ebc := (vertex [b, c] new_ids).getD 0
      let mida := (vertex (face ++ [a]) new_ids).getD 0
      let midb := (vertex (face ++ [b]) new_ids).getD 0
      [eab, eba, b, ebc, midb, mida]))
  let face_index2 : List (List ℕ) := p.face_index.map (fun face =>
    face.map (fun a => (vertex (face ++ [a]) new_ids).getD 0))
  let face_index := face_index1 ++ face_index2
  let p1 := p.append_new_face_set (face_index.length - p.face_index.length)
  { p1 with
    points := p.points ++ vertex_values new_points
    face_index := face_index
    name := if change_name then
        "w" ++ fmt2_opt ratio
          ++ (match height with | some h => "," ++ fmt2 h | none => "")
          ++ p.name
      else p.name }

/-- Parameter string shared by `truncate`-shaped name emitters:
`height` as `{:.2}`, then `,{}` with `format_vec(vertex_valence)`, then the
literal `,\x7bt\x7d` when `regular_faces_only` is set. -/
def hvr_params (height : Option ℚ) (vertex_valence : Option (List ℕ))
    (regular_faces_only : Bool) : String :=
  fmt2_opt height
    ++ (match vertex_valence with
        | some vv => "," ++ format_vec vv
        | none => "")
    ++ (if regular_faces_only then ",\x7bt\x7d" else "")

/-- `Polyhedron::truncate(height, vertex_valence, regular_faces_only, change_name)`:
`dual`, `kis`, `dual`. -/
noncomputable def Polyhedron.truncate (p : Polyhedron) (height : Option ℚ)
    (vertex_valence : Option (List ℕ)) (regular_faces_only change_name : Bool) : Polyhedron :=
  let p1 := p.dual false
  let p2 := p1.kis height vertex_valence regular_faces_only false
  let p3 := p2.dual false
  { p3 with name := if change_name then
      "t" ++ hvr_params height vertex_valence regular_faces_only ++ p3.name
    else p3.name }

/-- `Polyhedron::bevel(ratio, height, vertex_valence, regular_faces_only, change_name)`:
`truncate` then `ambo`.  NOTE the source writes `ratio` and `height` back to
back with no separating comma. -/
noncomputable def Polyhedron.bevel (p : Polyhedron) (ratio height : Option ℚ)
    (vertex_valence : Option (List ℕ)) (regular_faces_only change_name : Bool) : Polyhedron :=
  let p1 := p.truncate height vertex_valence regular_faces_only false
  let p2 := p1.ambo ratio false
  { p2 with name := if change_name then
      "b" ++ fmt2_opt ratio ++ fmt2_opt height
        ++ (match vertex_valence with
            | some vv => "," ++ format_vec vv
            | none => "")
        ++ (if regular_faces_only then ",\x7bt\x7d" else "")
        ++ p2.name
    else p2.name }

/-- `Polyhedron::expand(ratio, change_name)`: `ambo` twice. -/
noncomputable def Polyhedron.expand (p : Polyhedron) (ratio : Option ℚ)
    (change_name : Bool) : Polyhedron :=
  let p1 := p.ambo ratio false
  let p2 := p1.ambo ratio false
  { p2 with name := if change_name then "e" ++ fmt2_opt ratio ++ p2.name else p2.name }

/-- `Polyhedron::join(ratio, change_name)`: `dual`, `ambo`, `dual`. -/
noncomputable def Polyhedron.join (p : Polyhedron) (ratio : Option ℚ)
    (change_name : Bool) : Polyhedron :=
  let p1 := p.dual false
  let p2 := p1.ambo ratio false
  let p3 := p2.dual false
  { p3 with name := if change_name then "j" ++ fmt2_opt ratio ++ p3.name else p3.name }

/-- `Polyhedron::medial(ratio, height, vertex_valence, regular_faces_only, change_name)`:
`dual`, `truncate`, `ambo` (same no-comma `ratio`/`height` formatting as `bevel`). -/
noncomputable def Polyhedron.medial (p : Polyhedron) (ratio height : Option ℚ)
    (vertex_valence : Option (List ℕ)) (regular_faces_only change_name : Bool) : Polyhedron :=
  let p1 := p.dual false
  let p2 := p1.truncate height vertex_valence regular_faces_only false
  let p3 := p2.ambo ratio false
  { p3 with name := if change_name then
      "M" ++ fmt2_opt ratio ++ fmt2_opt height
        ++ (match vertex_valence with
            | some vv => "," ++ format_vec vv
            | none => "")
        ++ (if regular_faces_only then ",\x7bt\x7d" else "")
        ++ p3.name
    else p3.name }

/-- `Polyhedron::meta(ratio, height, vertex_valence, regular_faces_only, change_name)`:
`kis` (default valence `[3]`) then `join`. -/
noncomputable def Polyhedron.meta (p : Polyhedron) (ratio height : Option ℚ)
    (vertex_valence : Option (List ℕ)) (regular_faces_only change_name : Bool) : Polyhedron :=
  let p1 := p.kis height
    (match vertex_valence with
     | none => some [3]
     | _ => vertex_valence) regular_faces_only false
  let p2 := p1.join ratio false
  { p2 with name := if change_name then
      "m" ++ fmt2_opt ratio ++ fmt2_opt height
        ++ (match vertex_valence with
            | some vv => "," ++ format_vec vv
            | none => "")
        ++ (if regular_faces_only then ",\x7bt\x7d" else "")
        ++ p2.name
    else p2.name }

/-- `Polyhedron::needle(height, vertex_valence, regular_faces_only, change_name)`:
`dual` then `truncate`. -/
noncomputable def Polyhedron.needle (p : Polyhedron) (height : Option ℚ)
    (vertex_valence : Option (List ℕ)) (regular_faces_only change_name : Bool) : Polyhedron :=
  let p1 := p.dual false
  let p2 := p1.truncate height vertex_valence regular_faces_only false
  { p2 with name := if change_name then
      "n" ++ hvr_params height vertex_valence regular_faces_only ++ p2.name
    else p2.name }

/-- `Polyhedron::ortho(ratio, change_name)`: `join` twice. -/
noncomputable def Polyhedron.ortho (p : Polyhedron) (ratio : Option ℚ)
    (change_name : Bool) : Polyhedron :=
  let p1 := p.join ratio false
  let p2 := p1.join ratio false
  { p2 with name := if change_name then "o" ++ fmt2_opt ratio ++ p2.name else p2.name }

/-- `Polyhedron::snub(ratio, height, change_name)`: `dual`, `gyro`, `dual`. -/
noncomputable def Polyhedron.snub (p : Polyhedron) (ratio height : Option ℚ)
    (change_name : Bool) : Polyhedron :=
  let p1 := p.dual false
  let p2 := p1.gyro ratio height false
  let p3 := p2.dual false
  { p3 with name := if change_name then
      "s" ++ fmt2_opt ratio
        ++ (match height with | some h => "," ++ fmt2 h | none => "")
        ++ p3.name
    else p3.name }

/-- `Polyhedron::zip(height, vertex_valence, regular_faces_only, change_name)`:
`dual` then `kis`. -/
noncomputable def Polyhedron.zip (p : Polyhedron) (height : Option ℚ)
    (vertex_valence : Option (List ℕ)) (regular_faces_only change_name : Bool) : Polyhedron :=
  let p1 := p.dual false
  let p2 := p1.kis height vertex_valence regular_faces_only false
  { p2 with name := if change_name then
      "z" ++ hvr_params height vertex_valence regular_faces_only ++ p2.name
    else p2.name }

/-- The per-face step of `triangulate`.  A quad is split along the `(0,2)`
diagonal when `shortest == (|p0 - p2|² < |p1 - p3|²)`, a pentagon becomes the
fixed fan `(0,1,4), (1,2,4), (4,2,3)`, and any other face becomes a fan from
vertex 0 (a triangle maps to itself). -/
noncomputable def triangulate_face (points : List Pt) (shortest : Bool)
    (face : List ℕ) : List (List ℕ) :=
  if face.length = 4 then
    let p := as_points face points
    if shortest = rltB (mag_sq (psub (p.getD 0 pzero) (p.getD 2 pzero)))
                       (mag_sq (psub (p.getD 1 pzero) (p.getD 3 pzero))) then
      [[face.getD 0 0, face.getD 1 0, face.getD 2 0],
       [face.getD 0 0, face.getD 2 0, face.getD 3 0]]
    else
      [[face.getD 1 0, face.getD 2 0, face.getD 3 0],
       [face.getD 1 0, face.getD 3 0, face.getD 0 0]]
  else if face.length = 5 then
    [[face.getD 0 0, face.getD 1 0, face.getD 4 0],
     [face.getD 1 0, face.getD 2 0, face.getD 4 0],
     [face.getD 4 0, face.getD 2 0, face.getD 3 0]]
  else
    (List.range (face.length - 2)).map (fun k =>
      [face.getD 0 0, face.getD (k + 1) 0, face.getD (k + 2) 0])

/-- `Polyhedron::triangulate(shortest)`. -/
noncomputable def Polyhedron.triangulate (p : Polyhedron) (shortest : Bool) : Polyhedron :=
  { p with face_index := p.face_index.flatMap (triangulate_face p.points shortest) }

/-- `NormalType`. -/
inductive NormalType where
  | Smooth (angle : ℚ)
  | Flat

/-- `Polyhedron::normals(normal_type)`.  `Smooth` returns the empty vector;
`Flat` returns, per face, per corner, the negated normalized corner cross
product (the corner triples start at the face's last vertex). -/
noncomputable def Polyhedron.normals (p : Polyhedron) (normal_type : NormalType) :
    List Pt :=
  match normal_type with
  | NormalType.Smooth _ => []
  | NormalType.Flat => p.face_index.flatMap (fun f =>
      (List.range f.length).map (fun i =>
        psmul (-1)
          (pnormalized (orthogonal
            (p.points.getD (f.getD ((i + f.length - 1) % f.length) 0) pzero)
            (p.points.getD (f.getD i 0) pzero)
            (p.points.getD (f.getD ((i + 1) % f.length) 0) pzero)))))

/-- `Polyhedron::tetrahedron()`. -/
noncomputable def tetrahedron : Polyhedron where
  points := [((1 : ℝ), (1 : ℝ), (1 : ℝ)), (1, -1, -1), (-1, 1, -1), (-1, -1, 1)]
  face_index := [[2, 1, 0], [3, 2, 0], [1, 3, 0], [2, 3, 1]]
  face_set_index := [[0, 1, 2, 3]]
  name := "T"

/-- `Polyhedron::hexahedron()` (alias `cube`). -/
noncomputable def hexahedron : Polyhedron where
  points := [((1 : ℝ), (1 : ℝ), (1 : ℝ)), (1, 1, -1), (1, -1, 1), (1, -1, -1),
             (-1, 1, 1), (-1, 1, -1), (-1, -1, 1), (-1, -1, -1)]
  face_index := [[4, 5, 1, 0], [2, 6, 4, 0], [1, 3, 2, 0],
                 [6, 2, 3, 7], [5, 4, 6, 7], [3, 1, 5, 7]]
  face_set_index := [[0, 1, 2, 3, 4, 5]]
  name := "C"

/-- `Polyhedron::octahedron()` (`0.707_106_77f32` modelled by its decimal). -/
noncomputable def octahedron : Polyhedron where
  points := [((0 : ℝ), (0 : ℝ), (70710677 : ℝ) / 100000000),
             (0, 0, -(70710677 : ℝ) / 100000000),
             ((70710677 : ℝ) / 100000000, 0, 0),
             (-(70710677 : ℝ) / 100000000, 0, 0),
             (0, (70710677 : ℝ) / 100000000, 0),
             (0, -(70710677 : ℝ) / 100000000, 0)]
  face_index := [[4, 2, 0], [3, 4, 0], [5, 3, 0], [2, 5, 0],
                 [5, 2, 1], [3, 5, 1], [4, 3, 1], [2, 4, 1]]
  face_set_index := [[0, 1, 2, 3, 4, 5, 6, 7]]
  name := "O"

/-- `Polyhedron::dodecahedron()` (`c0 = 0.809_017`, `c1 = 1.309_017`). -/
noncomputable def dodecahedron : Polyhedron where
  points :=
    [((0 : ℝ), (1 : ℝ) / 2, (1309017 : ℝ) / 1000000),
     (0, 1 / 2, -(1309017 : ℝ) / 1000000),
     (0, -(1 : ℝ) / 2, (1309017 : ℝ) / 1000000),
     (0, -(1 : ℝ) / 2, -(1309017 : ℝ) / 1000000),
     ((1309017 : ℝ) / 1000000, 0, 1 / 2),
     ((1309017 : ℝ) / 1000000, 0, -(1 : ℝ) / 2),
     (-(1309017 : ℝ) / 1000000, 0, 1 / 2),
     (-(1309017 : ℝ) / 1000000, 0, -(1 : ℝ) / 2),
     (1 / 2, (1309017 : ℝ) / 1000000, 0),
     (1 / 2, -(1309017 : ℝ) / 1000000, 0),
     (-(1 : ℝ) / 2, (1309017 : ℝ) / 1000000, 0),
     (-(1 : ℝ) / 2, -(1309017 : ℝ) / 1000000, 0),
     ((809017 : ℝ) / 1000000, (809017 : ℝ) / 1000000, (809017 : ℝ) / 1000000),
     ((809017 : ℝ) / 1000000, (809017 : ℝ) / 1000000, -(809017 : ℝ) / 1000000),
     ((809017 : ℝ) / 1000000, -(809017 : ℝ) / 1000000, (809017 : ℝ) / 1000000),
     ((809017 : ℝ) / 1000000, -(809017 : ℝ) / 1000000, -(809017 : ℝ) / 1000000),
     (-(809017 : ℝ) / 1000000, (809017 : ℝ) / 1000000, (809017 : ℝ) / 1000000),
     (-(809017 : ℝ) / 1000000, (809017 : ℝ) / 1000000, -(809017 : ℝ) / 1000000),
     (-(809017 : ℝ) / 1000000, -(809017 : ℝ) / 1000000, (809017 : ℝ) / 1000000),
     (-(809017 : ℝ) / 1000000, -(809017 : ℝ) / 1000000, -(809017 : ℝ) / 1000000)]
  face_index :=
    [[12, 4, 14, 2, 0], [16, 10, 8, 12, 0], [2, 18, 6, 16, 0],
     [17, 10, 16, 6, 7], [19, 3, 1, 17, 7], [6, 18, 11, 19, 7],
     [15, 3, 19, 11, 9], [14, 4, 5, 15, 9], [11, 18, 2, 14, 9],
     [8, 10, 17, 1, 13], [5, 4, 12, 8, 13], [1, 3, 15, 5, 13]]
  face_set_index := [[0, 1, 2, 3, 4, 5, 6, 7, 8, 9, 10, 11]]
  name := "D"

/-- `Polyhedron::icosahedron()` (`c0 = 0.809_017`). -/
noncomputable def icosahedron : Polyhedron where
  points :=
    [((1 : ℝ) / 2, 0, (809017 : ℝ) / 1000000),
     (1 / 2, 0, -(809017 : ℝ) / 1000000),
     (-(1 : ℝ) / 2, 0, (809017 : ℝ) / 1000000),
     (-(1 : ℝ) / 2, 0, -(809017 : ℝ) / 1000000),
     ((809017 : ℝ) / 1000000, 1 / 2, 0),
     ((809017 : ℝ) / 1000000, -(1 : ℝ) / 2, 0),
     (-(809017 : ℝ) / 1000000, 1 / 2, 0),
     (-(809017 : ℝ) / 1000000, -(1 : ℝ) / 2, 0),
     (0, (809017 : ℝ) / 1000000, 1 / 2),
     (0, (809017 : ℝ) / 1000000, -(1 : ℝ) / 2),
     (0, -(809017 : ℝ) / 1000000, 1 / 2),
     (0, -(809017 : ℝ) / 1000000, -(1 : ℝ) / 2)]
  face_index :=
    [[10, 2, 0], [5, 10, 0], [4, 5, 0], [8, 4, 0], [2, 8, 0],
     [6, 8, 2], [7, 6, 2], [10, 7, 2], [11, 7, 10], [5, 11, 10],
     [1, 11, 5], [4, 1, 5], [9, 1, 4], [8, 9, 4], [6, 9, 8],
     [3, 9, 6], [7, 3, 6], [11, 3, 7], [1, 3, 11], [9, 3, 1]]
  face_set_index :=
    [[0, 1, 2, 3, 4, 5, 6, 7, 8, 9, 10, 11, 12, 13, 14, 15, 16, 17, 18, 19]]
  name := "I"

/-- `V - E + F` with `E = distinct_edges(faces)` (testable property 8). -/
def euler_characteristic (p : Polyhedron) : ℤ :=
  (p.points.length : ℤ) - (p.to_edges.length : ℤ) + (p.face_index.length : ℤ)

/-- `Polyhedron::finalize()` (a clone of the builder). -/
def Polyhedron.finalize (p : Polyhedron) : Polyhedron := p

/-- The geometric/topological content of a mesh: everything except the
cosmetic name. -/
def Polyhedron.geom (p : Polyhedron) : List Pt × List (List ℕ) × List (List ℕ) :=
  (p.points, p.face_index, p.face_set_index)

/-- A degenerate but well-typed mesh with `V - E + F = 2`: two triangles glued
along all three edges (a "pillow").  Not reachable from a seed. -/
noncomputable def pillow : Polyhedron where
  points := [((0 : ℝ), (0 : ℝ), (0 : ℝ)), (1, 0, 0), (0, 1, 0)]
  face_index := [[0, 1, 2], [2, 1, 0]]
  face_set_index := []
  name := ""

/-- A single unit-square quadrilateral, whose two diagonals have equal length. -/
noncomputable def square_quad : Polyhedron where
  points := [((0 : ℝ), (0 : ℝ), (0 : ℝ)), (1, 0, 0), (1, 1, 0), (0, 1, 0)]
  face_index := [[0, 1, 2, 3]]
  face_set_index := [[0]]
  name := "Q"

/-!  ## Theorems  -/

theorem rltB_eq_true {a b : ℝ} (h : a < b) : rltB a b = true := decide_eq_true h

theorem rltB_eq_false {a b : ℝ} (h : ¬ a < b) : rltB a b = false := decide_eq_false h

theorem reduce_float_max_three (s : ℝ) : reduce_float_max [s, s, s] = s := by
  simp [reduce_float_max]

theorem reduce_float_min_three (s : ℝ) : reduce_float_min [s, s, s] = s := by
  simp [reduce_float_min]

/-- A face whose three edges have one common positive length passes the
`kis` 10%-regularity test. -/
theorem regular_of_equal_lengths (face : List ℕ) (points : List Pt) (s : ℝ)
    (hs : 0 < s) (h : face_edges face points = [s, s, s]) :
    |face_irregular_faces_onlyity face points - 1| < 1 / 10 := by
  rw [face_irregular_faces_onlyity, h, reduce_float_max_three, reduce_float_min_three,
    div_self (ne_of_gt hs)]
  norm_num

/-- Every face of the tetrahedron seed has all edge lengths `√8`. -/
theorem tetra_face_edges (f : List ℕ) (hf : f ∈ tetrahedron.face_index) :
    face_edges f tetrahedron.points = [Real.sqrt 8, Real.sqrt 8, Real.sqrt 8] := by
  fin_cases hf <;>
    · simp only [face_edges, ordered_face_edges, edge_length, tetrahedron, mag, mag_sq, psub,
        List.getD, List.length_cons, List.length_nil]
      norm_num [List.range_succ]

/-- With `face_arity = [4]` and `regular_faces_only = false`, the `kis` filter
nevertheless accepts every (regular) tetrahedron face, through its
`... || (irregularity < 0.1)` disjunct. -/
theorem kis_filter_tetra (f : List ℕ) (hf : f ∈ tetrahedron.face_index) :
    kis_filter tetrahedron.points (some [4]) false f = true := by
  have hreg : |face_irregular_faces_onlyity f tetrahedron.points - 1| < 1 / 10 :=
    regular_of_equal_lengths f tetrahedron.points (Real.sqrt 8)
      (Real.sqrt_pos.mpr (by norm_num)) (tetra_face_edges f hf)
  rw [kis_filter, rltB_eq_true hreg, Bool.or_true]

theorem kis_selected_tetra :
    kis_selected tetrahedron (some [4]) false = tetrahedron.face_index :=
  List.filter_eq_self.mpr (fun f hf => kis_filter_tetra f hf)

/-- The face list `kis` builds, with the vertex-id table rewritten into a
form that does not mention the new points (their values do not enter the ids). -/
theorem kis_face_index_eq (p : Polyhedron) (h : Option ℚ) (fa : Option (List ℕ))
    (rfo cn : Bool) :
    (p.kis h fa rfo cn).face_index
      = p.face_index.flatMap (fun face =>
          match vertex face ((kis_selected p fa rfo).enum.map
              (fun q => (q.2, q.1 + p.points.length))) with
          | some c => (List.range face.length).map (fun j =>
              [face.getD j 0, face.getD ((j + 1) % face.length) 0, c])
          | none => [face]) := by
  simp only [Polyhedron.kis, vertex_ids, List.enum_map, List.map_map]
  rfl

/-- Claim C1: the claim (and `kis`'s own doc comment, "Only faces matching the
given arities will be affected") requires that with `face_arity = Some([4])`
and `regular_faces_only = false` no tetrahedron face is selected, leaving the
4-face topology unchanged.  The code's filter is
`(selected_face(..) && !regular_faces_only) || (irregularity within 0.1)`
(Rust `&&` binds tighter than `||`), so every regular face is selected no
matter what `face_arity` says: all 4 faces are replaced by their triangle
fans and the result has 12 faces. -/
theorem C1_kis_arity_filter_ignored_for_regular_faces :
    tetrahedron.face_index.map (fun f => selected_face f (some [4]))
        = [false, false, false, false] ∧
    tetrahedron.face_index.length = 4 ∧
    (tetrahedron.kis none (some [4]) false false).face_index.length = 12 := by
  refine ⟨by decide, by decide, ?_⟩
  rw [kis_face_index_eq, kis_selected_tetra]
  decide

/-- Claim C2, corrected: only `ambo`, `chamfer` and `whirl` append a face set
(exactly one per invocation); `kis`, `gyro`, `propellor`, `quinto`, `dual`,
`reflect`, `reverse` and `triangulate` leave the face-set list unchanged.
The appended set is the arithmetic index range starting at the *input* mesh's
face count — of length the full new face count for `ambo`/`chamfer`, and new
minus old for `whirl` — not the range of positions the produced faces occupy
in the new face list. -/
theorem C2_face_set_bookkeeping (p : Polyhedron) (r h : Option ℚ)
    (fa : Option (List ℕ)) (rfo cn s : Bool) :
    ((p.ambo r cn).face_set_index
      = p.face_set_index
        ++ [(List.range (p.ambo r cn).face_index.length).map
              (fun i => p.face_index.length + i)]) ∧
    ((p.chamfer r cn).face_set_index
      = p.face_set_index
        ++ [(List.range (p.chamfer r cn).face_index.length).map
              (fun i => p.face_index.length + i)]) ∧
    ((p.whirl r h cn).face_set_index
      = p.face_set_index
        ++ [(List.range ((p.whirl r h cn).face_index.length - p.face_index.length)).map
              (fun i => p.face_index.length + i)]) ∧
    (p.kis h fa rfo cn).face_set_index = p.face_set_index ∧
    (p.gyro r h cn).face_set_index = p.face_set_index ∧
    (p.propellor r cn).face_set_index = p.face_set_index ∧
    (p.quinto h cn).face_set_index = p.face_set_index ∧
    (p.dual cn).face_set_index = p.face_set_index ∧
    (p.reflect cn).face_set_index = p.face_set_index ∧
    p.reverse.face_set_index = p.face_set_index ∧
    (p.triangulate s).face_set_index = p.face_set_index :=
  ⟨rfl, rfl, rfl, rfl, rfl, rfl, rfl, rfl, rfl, rfl, rfl⟩

/-- Claim C2 is false as stated: `kis` (default arguments) replaces the
tetrahedron's 4 faces with 12 new triangles — an invocation that creates
faces — yet appends no `FaceSet` (the face-set list stays `[[0,1,2,3]]`,
length 1, where the claim demands a second set).  And `ambo`'s single
appended set is `[4..11]` against a new face list of indices `0..7`, so it
does not cover the produced faces. -/
theorem C2_counterexample_kis_and_ambo :
    (tetrahedron.kis none none false false).face_index.length = 12 ∧
    (tetrahedron.kis none none false false).face_set_index = [[0, 1, 2, 3]] ∧
    (tetrahedron.kis none none false false).face_set_index.length = 1 ∧
    (tetrahedron.ambo none false).face_index.length = 8 ∧
    (tetrahedron.ambo none false).face_set_index
      = [[0, 1, 2, 3], [4, 5, 6, 7, 8, 9, 10, 11]] := by
  refine ⟨by decide, by decide, by decide, by decide, by decide⟩

theorem mem_unique_first_aux {α : Type} [DecidableEq α] {x : α} :
    ∀ (l : List α) (seen : List α), x ∈ unique_first_aux seen l → x ∈ l := by
  intro l
  induction l with
  | nil => intro seen hx; simp [unique_first_aux] at hx
  | cons a as ih =>
    intro seen hx
    simp only [unique_first_aux] at hx
    split_ifs at hx with h
    · exact List.mem_cons_of_mem a (ih _ hx)
    · rcases List.mem_cons.mp hx with h1 | h2
      · exact h1 ▸ List.mem_cons_self a as
      · exact List.mem_cons_of_mem a (ih _ h2)

/-- Every edge `distinct_edges` emits is stored min-first. -/
theorem distinct_edges_min_first (faces : List (List ℕ)) :
    ∀ e ∈ distinct_edges faces, e.1 < e.2 := by
  intro e he
  have h1 : e ∈ faces.flatMap ascending_cycle_edges :=
    mem_unique_first_aux _ _ he
  rcases List.mem_flatMap.mp h1 with ⟨face, _, hface⟩
  simp only [ascending_cycle_edges] at hface
  have h2 := List.take_subset _ _ hface
  rcases List.mem_flatten.mp h2 with ⟨per, hper, he2⟩
  have hpe := (List.mem_replicate.mp hper).2
  subst hpe
  simpa using (List.mem_filter.mp he2).2

/-- Claim C3: `ambo` replaces the point list by exactly one point per distinct
(min-first) undirected edge, at `r·p[a] + (1-r)·p[b]` with the supplied ratio
clamped (default `1/2`); ratio `0` lands every point on the second endpoint
and ratio `1` on the first; and `dodecahedron().ambo()` has 30 points, 60
distinct edges and 32 faces — 20 triangles plus 12 pentagons. -/
theorem C3_ambo_points (p : Polyhedron) (r : ℚ) (cn : Bool) :
    ((p.ambo (some r) cn).points
      = (distinct_edges p.face_index).map (fun edge =>
          padd (psmul ((clamped01 r : ℚ) : ℝ) (p.points.getD edge.1 pzero))
               (psmul ((1 - clamped01 r : ℚ) : ℝ) (p.points.getD edge.2 pzero)))) ∧
    ((p.ambo none cn).points
      = (distinct_edges p.face_index).map (fun edge =>
          padd (psmul ((1 / 2 : ℚ) : ℝ) (p.points.getD edge.1 pzero))
               (psmul ((1 - 1 / 2 : ℚ) : ℝ) (p.points.getD edge.2 pzero)))) ∧
    ((p.ambo (some 0) cn).points
      = (distinct_edges p.face_index).map (fun edge => p.points.getD edge.2 pzero)) ∧
    ((p.ambo (some 1) cn).points
      = (distinct_edges p.face_index).map (fun edge => p.points.getD edge.1 pzero)) ∧
    ((distinct_edges p.face_index).all (fun e => decide (e.1 < e.2)) = true) ∧
    (dodecahedron.ambo none false).points.length = 30 ∧
    (dodecahedron.face_index.length = 12 ∧
      (distinct_edges dodecahedron.face_index).length = 30) ∧
    ((dodecahedron.ambo none false).to_edges.length = 60 ∧
      (dodecahedron.ambo none false).face_index.length = 32) ∧
    ((dodecahedron.ambo none false).face_index.filter
        (fun f => f.length = 3)).length = 20 ∧
    ((dodecahedron.ambo none false).face_index.filter
        (fun f => f.length = 5)).length = 12 := by
  refine ⟨?_, ?_, ?_, ?_, ?_, by decide, by decide, by decide, by decide, by decide⟩
  · simp only [Polyhedron.ambo, vertex_values, List.map_map]
    rfl
  · simp only [Polyhedron.ambo, vertex_values, List.map_map]
    rfl
  · simp only [Polyhedron.ambo, vertex_values, List.map_map]
    congr 1
    funext edge
    simp [clamped01, padd, psmul, pzero, Function.comp]
    norm_num
  · simp only [Polyhedron.ambo, vertex_values, List.map_map]
    congr 1
    funext edge
    simp [clamped01, padd, psmul, pzero, Function.comp]
    norm_num
  · exact List.all_eq_true.mpr
      (fun e he => decide_eq_true (distinct_edges_min_first p.face_index e he))

/-- Claim C4: each derived operator is the stated composition of primitives,
with each numeric parameter forwarded exactly to the component call where it
applies, every component call made with `change_name = false`, and the name
token emitted only by the outer call (so with `change_name = false` the name
is untouched). -/
theorem C4_derived_operator_compositions (p : Polyhedron) (r h : Option ℚ)
    (vv : Option (List ℕ)) (rfo cn : Bool) :
    (p.expand r cn
      = { (p.ambo r false).ambo r false with
          name := if cn then "e" ++ fmt2_opt r ++ ((p.ambo r false).ambo r false).name
                  else ((p.ambo r false).ambo r false).name }) ∧
    (p.ortho r cn
      = { (p.join r false).join r false with
          name := if cn then "o" ++ fmt2_opt r ++ ((p.join r false).join r false).name
                  else ((p.join r false).join r false).name }) ∧
    (p.truncate h vv rfo cn
      = { ((p.dual false).kis h vv rfo false).dual false with
          name := if cn then
              "t" ++ hvr_params h vv rfo
                ++ (((p.dual false).kis h vv rfo false).dual false).name
            else (((p.dual false).kis h vv rfo false).dual false).name }) ∧
    (p.needle h vv rfo cn
      = { (p.dual false).truncate h vv rfo false with
          name := if cn then
              "n" ++ hvr_params h vv rfo ++ ((p.dual false).truncate h vv rfo false).name
            else ((p.dual false).truncate h vv rfo false).name }) ∧
    (p.zip h vv rfo cn
      = { (p.dual false).kis h vv rfo false with
          name := if cn then
              "z" ++ hvr_params h vv rfo ++ ((p.dual false).kis h vv rfo false).name
            else ((p.dual false).kis h vv rfo false).name }) ∧
    (p.bevel r h vv rfo cn
      = { (p.truncate h vv rfo false).ambo r false with
          name := if cn then
              "b" ++ fmt2_opt r ++ fmt2_opt h
                ++ (match vv with | some v => "," ++ format_vec v | none => "")
                ++ (if rfo then ",\x7bt\x7d" else "")
                ++ ((p.truncate h vv rfo false).ambo r false).name
            else ((p.truncate h vv rfo false).ambo r false).name }) ∧
    (p.snub r h cn
      = { (((p.dual false).gyro r h false)).dual false with
          name := if cn then
              "s" ++ fmt2_opt r ++ (match h with | some x => "," ++ fmt2 x | none => "")
                ++ ((((p.dual false).gyro r h false)).dual false).name
            else ((((p.dual false).gyro r h false)).dual false).name }) ∧
    (p.medial r h vv rfo cn
      = { ((p.dual false).truncate h vv rfo false).ambo r false with
          name := if cn then
              "M" ++ fmt2_opt r ++ fmt2_opt h
                ++ (match vv with | some v => "," ++ format_vec v | none => "")
                ++ (if rfo then ",\x7bt\x7d" else "")
                ++ (((p.dual false).truncate h vv rfo false).ambo r false).name
            else (((p.dual false).truncate h vv rfo false).ambo r false).name }) ∧
    (p.join r cn
      = { ((p.dual false).ambo r false).dual false with
          name := if cn then
              "j" ++ fmt2_opt r ++ (((p.dual false).ambo r false).dual false).name
            else (((p.dual false).ambo r false).dual false).name }) ∧
    (p.expand r false).name = p.name ∧
    (p.ortho r false).name = p.name ∧
    (p.truncate h vv rfo false).name = p.name ∧
    (p.needle h vv rfo false).name = p.name ∧
    (p.zip h vv rfo false).name = p.name ∧
    (p.bevel r h vv rfo false).name = p.name ∧
    (p.snub r h false).name = p.name ∧
    (p.medial r h vv rfo false).name = p.name ∧
    (p.join r false).name = p.name :=
  ⟨rfl, rfl, rfl, rfl, rfl, rfl, rfl, rfl, rfl,
   rfl, rfl, rfl, rfl, rfl, rfl, rfl, rfl, rfl⟩

/-- Claim C5, corrected: `triangulate` maps every face by arity (triangles
kept, quads split along the closer diagonal when `shortest` and the farther
one otherwise, the fixed pentagon fan, and a fan from vertex 0 for `n ≥ 6`)
and leaves the point list unchanged — but on a tie between the two quad
diagonals the `(0,2)` diagonal is chosen only when `shortest` is `false`;
when `shortest` is `true` a tie selects the `(1,3)` diagonal (the source
tests `shortest == (d02 < d13)`, which is `false` on a tie with
`shortest = true`). -/
theorem C5_triangulate_characterization (p : Polyhedron) (shortest : Bool) :
    ((p.triangulate shortest).face_index
      = p.face_index.flatMap (triangulate_face p.points shortest)) ∧
    (p.triangulate shortest).points = p.points ∧
    (∀ face : List ℕ, face.length = 3 →
      triangulate_face p.points shortest face = [face]) ∧
    (∀ face : List ℕ, face.length = 5 →
      triangulate_face p.points shortest face
        = [[face.getD 0 0, face.getD 1 0, face.getD 4 0],
           [face.getD 1 0, face.getD 2 0, face.getD 4 0],
           [face.getD 4 0, face.getD 2 0, face.getD 3 0]]) ∧
    (∀ face : List ℕ, 6 ≤ face.length →
      triangulate_face p.points shortest face
        = (List.range (face.length - 2)).map (fun k =>
            [face.getD 0 0, face.getD (k + 1) 0, face.getD (k + 2) 0])) ∧
    (∀ face : List ℕ, face.length = 4 →
      mag_sq (psub ((as_points face p.points).getD 0 pzero)
                   ((as_points face p.points).getD 2 pzero))
        < mag_sq (psub ((as_points face p.points).getD 1 pzero)
                       ((as_points face p.points).getD 3 pzero)) →
      triangulate_face p.points shortest face
        = if shortest then
            [[face.getD 0 0, face.getD 1 0, face.getD 2 0],
             [face.getD 0 0, face.getD 2 0, face.getD 3 0]]
          else
            [[face.getD 1 0, face.getD 2 0, face.getD 3 0],
             [face.getD 1 0, face.getD 3 0, face.getD 0 0]]) ∧
    (∀ face : List ℕ, face.length = 4 →
      mag_sq (psub ((as_points face p.points).getD 1 pzero)
                   ((as_points face p.points).getD 3 pzero))
        < mag_sq (psub ((as_points face p.points).getD 0 pzero)
                       ((as_points face p.points).getD 2 pzero)) →
      triangulate_face p.points shortest face
        = if shortest then
            [[face.getD 1 0, face.getD 2 0, face.getD 3 0],
             [face.getD 1 0, face.getD 3 0, face.getD 0 0]]
          else
            [[face.getD 0 0, face.getD 1 0, face.getD 2 0],
             [face.getD 0 0, face.getD 2 0, face.getD 3 0]]) ∧
    (∀ face : List ℕ, face.length = 4 →
      mag_sq (psub ((as_points face p.points).getD 0 pzero)
                   ((as_points face p.points).getD 2 pzero))
        = mag_sq (psub ((as_points face p.points).getD 1 pzero)
                       ((as_points face p.points).getD 3 pzero)) →
      triangulate_face p.points shortest face
        = if shortest then
            [[face.getD 1 0, face.getD 2 0, face.getD 3 0],
             [face.getD 1 0, face.getD 3 0, face.getD 0 0]]
          else
            [[face.getD 0 0, face.getD 1 0, face.getD 2 0],
             [face.getD 0 0, face.getD 2 0, face.getD 3 0]]) := by
  refine ⟨rfl, rfl, ?_, ?_, ?_, ?_, ?_, ?_⟩
  · intro face h3
    rcases List.length_eq_three.mp h3 with ⟨a, b, c, rfl⟩
    simp [triangulate_face, List.range_succ]
  · intro face h5
    simp [triangulate_face, h5]
  · intro face h6
    have h4 : face.length ≠ 4 := by omega
    have h5 : face.length ≠ 5 := by omega
    simp [triangulate_face, h4, h5]
  · intro face h4 hlt
    simp only [triangulate_face, h4]
    rw [rltB_eq_true hlt]
    cases shortest <;> simp
  · intro face h4 hlt
    simp only [triangulate_face, h4]
    rw [rltB_eq_false (not_lt.mpr (le_of_lt hlt))]
    cases shortest <;> simp
  · intro face h4 heq
    simp only [triangulate_face, h4]
    rw [rltB_eq_false (by rw [heq]; exact lt_irrefl _)]
    cases shortest <;> simp

/-- Claim C5 witness: the tie-break clause applied to the unit square with
`shortest = true` (both diagonals have squared length 2). -/
theorem C5_triangulate_characterization_witness :
    triangulate_face square_quad.points true [0, 1, 2, 3] = [[1, 2, 3], [1, 3, 0]] := by
  have h := (C5_triangulate_characterization square_quad true).2.2.2.2.2.2.2
    [0, 1, 2, 3] (by decide)
    (by norm_num [square_quad, as_points, psub, mag_sq, List.getD, pzero])
  simpa using h

/-- Claim C5 counterexample: on the unit square (diagonal tie) with
`shortest = true`, the code splits along the `(1,3)` diagonal, not the `(0,2)`
diagonal the claim's tie-break rule dictates. -/
theorem C5_counterexample_square_tie :
    (square_quad.triangulate true).face_index = [[1, 2, 3], [1, 3, 0]] ∧
    (square_quad.triangulate true).face_index ≠ [[0, 1, 2], [0, 2, 3]] := by
  have hfe : rltB (mag_sq (psub ((as_points [0, 1, 2, 3] square_quad.points).getD 0 pzero)
        ((as_points [0, 1, 2, 3] square_quad.points).getD 2 pzero)))
      (mag_sq (psub ((as_points [0, 1, 2, 3] square_quad.points).getD 1 pzero)
        ((as_points [0, 1, 2, 3] square_quad.points).getD 3 pzero))) = false := by
    apply rltB_eq_false
    norm_num [square_quad, as_points, psub, mag_sq, List.getD, pzero]
  have hmain : (square_quad.triangulate true).face_index = [[1, 2, 3], [1, 3, 0]] := by
    show ([[0, 1, 2, 3]] : List (List ℕ)).flatMap (triangulate_face square_quad.points true)
        = [[1, 2, 3], [1, 3, 0]]
    simp only [List.flatMap_cons, List.flatMap_nil, List.append_nil]
    simp only [triangulate_face, show ([0, 1, 2, 3] : List ℕ).length = 4 from rfl]
    rw [hfe]
    simp
  exact ⟨hmain, by rw [hmain]; decide⟩

/-- Claim C6, corrected: `dual` replaces the point list with one centroid per
old face and the face list with one face per old vertex (that vertex's
ordered ring of faces, translated to face indices) — but it does *not*
discard the previous face-set partitioning: `face_set_index` is left exactly
as it was (the source marks this with a `FIXME`). -/
theorem C6_dual_characterization (p : Polyhedron) (cn : Bool) :
    ((p.dual cn).points
      = p.face_index.map (fun face => centroid (as_points face p.points))) ∧
    ((p.dual cn).face_index
      = (List.range p.points.length).map (fun vertex_number =>
          (ordered_vertex_faces vertex_number
              (vertex_faces vertex_number p.face_index)).map
            (fun original_face => (index_of original_face p.face_index).getD 0))) ∧
    (p.dual cn).face_set_index = p.face_set_index :=
  ⟨rfl, rfl, rfl⟩

/-- Claim C6 counterexample: after `dual`, the tetrahedron's face-set list is
still the pre-dual `[[0, 1, 2, 3]]` — the previous partitioning is retained
verbatim, not discarded. -/
theorem C6_counterexample_dual_retains_face_sets :
    (tetrahedron.dual false).face_set_index = tetrahedron.face_set_index ∧
    (tetrahedron.dual false).face_set_index = [[0, 1, 2, 3]] ∧
    (tetrahedron.dual false).face_set_index ≠ [] :=
  ⟨rfl, rfl, by decide⟩

/-- Claim C7, corrected: each of the five seeds satisfies `V - E + F = 2`, and
so does the result of every primitive operator (default parameters) applied
to the tetrahedron; but the claim's inductive step — *every* operator
preserves `V - E + F = 2` on *every* mesh satisfying it — fails, see the
counterexample. -/
theorem C7_euler_seeds_and_operators :
    euler_characteristic tetrahedron = 2 ∧
    euler_characteristic hexahedron = 2 ∧
    euler_characteristic octahedron = 2 ∧
    euler_characteristic dodecahedron = 2 ∧
    euler_characteristic icosahedron = 2 ∧
    euler_characteristic (tetrahedron.ambo none false) = 2 ∧
    euler_characteristic (tetrahedron.dual false) = 2 ∧
    euler_characteristic (tetrahedron.kis none none false false) = 2 ∧
    euler_characteristic (tetrahedron.chamfer none false) = 2 ∧
    euler_characteristic (tetrahedron.gyro none none false) = 2 ∧
    euler_characteristic (tetrahedron.propellor none false) = 2 ∧
    euler_characteristic (tetrahedron.whirl none none false) = 2 ∧
    euler_characteristic (tetrahedron.quinto none false) = 2 ∧
    euler_characteristic (tetrahedron.reflect false) = 2 :=
  ⟨by decide, by decide, by decide, by decide, by decide, by decide, by decide,
   by decide, by decide, by decide, by decide, by decide, by decide, by decide⟩

/-- Claim C7 counterexample: the "pillow" (two triangles glued along all
three edges) satisfies `V - E + F = 3 - 3 + 2 = 2`, yet `dual` turns it into
a mesh with `V - E + F = 2 - 1 + 3 = 4`; so an operator applied to a mesh
with `V - E + F = 2` need not preserve that property. -/
theorem C7_counterexample_euler_not_preserved :
    euler_characteristic pillow = 2 ∧
    euler_characteristic (pillow.dual false) = 4 ∧
    euler_characteristic (pillow.dual false) ≠ 2 :=
  ⟨by decide, by decide, by decide⟩

/-- Claim C8, corrected: every operator invocation with `change_name = true`
prefixes its single-letter token (`a, b, c, d, e, g, j, k, m, M, n, o, p, q,
r, s, t, w, z`) and its parameter string to the current name, the seed names
are `T, C, O, D, I`, and the `gapcD` scenario holds — but the parameter list
is not uniformly comma-separated `%.2f` values: `bevel`, `medial` and `meta`
write `ratio` and `height` adjacently with no comma, list parameters use
plain integer formatting (`kis` additionally truncates that string to two
characters), and `regular_faces_only` appends the literal `,\x7bt\x7d`. -/
theorem C8_name_grammar (p : Polyhedron) (r h : Option ℚ)
    (fa vv : Option (List ℕ)) (rfo : Bool) :
    tetrahedron.name = "T" ∧
    hexahedron.name = "C" ∧
    octahedron.name = "O" ∧
    dodecahedron.name = "D" ∧
    icosahedron.name = "I" ∧
    ((((dodecahedron.chamfer none true).propellor none true).ambo none
        true).gyro none none true).finalize.name = "gapcD" ∧
    (p.ambo r true).name = "a" ++ fmt2_opt r ++ p.name ∧
    (p.chamfer r true).name = "c" ++ fmt2_opt r ++ p.name ∧
    (p.dual true).name = "d" ++ p.name ∧
    (p.gyro r h true).name
      = "g" ++ fmt2_opt r ++ (match h with | some x => "," ++ fmt2 x | none => "")
          ++ p.name ∧
    (p.kis h fa rfo true).name
      = "k" ++ fmt2_opt h
          ++ (match fa with | some v => "," ++ (format_vec v).take 2 | none => "")
          ++ p.name ∧
    (p.propellor r true).name = "p" ++ fmt2_opt r ++ p.name ∧
    (p.quinto h true).name = "q" ++ fmt2_opt h ++ p.name ∧
    (p.reflect true).name = "r" ++ p.name ∧
    (p.whirl r h true).name
      = "w" ++ fmt2_opt r ++ (match h with | some x => "," ++ fmt2 x | none => "")
          ++ p.name ∧
    (p.expand r true).name = "e" ++ fmt2_opt r ++ p.name ∧
    (p.ortho r true).name = "o" ++ fmt2_opt r ++ p.name ∧
    (p.truncate h vv rfo true).name = "t" ++ hvr_params h vv rfo ++ p.name ∧
    (p.needle h vv rfo true).name = "n" ++ hvr_params h vv rfo ++ p.name ∧
    (p.zip h vv rfo true).name = "z" ++ hvr_params h vv rfo ++ p.name ∧
    (p.bevel r h vv rfo true).name
      = "b" ++ fmt2_opt r ++ fmt2_opt h
          ++ (match vv with | some v => "," ++ format_vec v | none => "")
          ++ (if rfo then ",\x7bt\x7d" else "") ++ p.name ∧
    (p.snub r h true).name
      = "s" ++ fmt2_opt r ++ (match h with | some x => "," ++ fmt2 x | none => "")
          ++ p.name ∧
    (p.medial r h vv rfo true).name
      = "M" ++ fmt2_opt r ++ fmt2_opt h
          ++ (match vv with | some v => "," ++ format_vec v | none => "")
          ++ (if rfo then ",\x7bt\x7d" else "") ++ p.name ∧
    (p.meta r h vv rfo true).name
      = "m" ++ fmt2_opt r ++ fmt2_opt h
          ++ (match vv with | some v => "," ++ format_vec v | none => "")
          ++ (if rfo then ",\x7bt\x7d" else "") ++ p.name ∧
    (p.join r true).name = "j" ++ fmt2_opt r ++ p.name :=
  ⟨rfl, rfl, rfl, rfl, rfl, by decide, rfl, rfl, rfl, rfl, rfl, rfl, rfl, rfl,
   rfl, rfl, rfl, rfl, rfl, rfl, rfl, rfl, rfl, rfl, rfl⟩

/-- Claim C8 counterexample: `bevel` with both `ratio` and `height` supplied
writes the two `%.2f` parameters back to back — the emitted name is
`"b" ++ fmt2 r ++ fmt2 h ++ "T"`, one character shorter than the
comma-separated `"b" ++ fmt2 r ++ "," ++ fmt2 h ++ "T"` the claim's grammar
prescribes. -/
theorem C8_counterexample_bevel_no_comma :
    (tetrahedron.bevel (some (1 / 4)) (some (1 / 4)) none false true).name
      = "b" ++ fmt2 (1 / 4) ++ fmt2 (1 / 4) ++ "" ++ "" ++ "T" ∧
    (tetrahedron.bevel (some (1 / 4)) (some (1 / 4)) none false true).name
      ≠ "b" ++ fmt2 (1 / 4) ++ "," ++ fmt2 (1 / 4) ++ "T" := by
  have h1 : (tetrahedron.bevel (some (1 / 4)) (some (1 / 4)) none false true).name
      = "b" ++ fmt2 (1 / 4) ++ fmt2 (1 / 4) ++ "" ++ "" ++ "T" := rfl
  refine ⟨h1, ?_⟩
  rw [h1]
  intro hcontra
  have hlen := congrArg String.length hcontra
  have hb : ("b" : String).length = 1 := rfl
  have hc : ("," : String).length = 1 := rfl
  have he : ("" : String).length = 0 := rfl
  have ht : ("T" : String).length = 1 := rfl
  simp only [String.length_append, hb, hc, he, ht] at hlen
  omega

theorem clamped01_idem (r : ℚ) : clamped01 (clamped01 r) = clamped01 r := by
  unfold clamped01
  split_ifs <;> first | rfl | linarith

theorem ambo_geom_congr {p q : Polyhedron} (h : p.geom = q.geom) (r : Option ℚ) (cn dn : Bool) :
    (p.ambo r cn).geom = (q.ambo r dn).geom := by
  cases p; cases q
  simp only [Polyhedron.geom, Prod.mk.injEq] at h
  obtain ⟨h1, h2, h3⟩ := h
  subst h1; subst h2; subst h3
  rfl

theorem dual_geom_congr {p q : Polyhedron} (h : p.geom = q.geom) (cn dn : Bool) :
    (p.dual cn).geom = (q.dual dn).geom := by
  cases p; cases q
  simp only [Polyhedron.geom, Prod.mk.injEq] at h
  obtain ⟨h1, h2, h3⟩ := h
  subst h1; subst h2; subst h3
  rfl

theorem join_geom_congr {p q : Polyhedron} (h : p.geom = q.geom) (r : Option ℚ) (cn dn : Bool) :
    (p.join r cn).geom = (q.join r dn).geom := by
  cases p; cases q
  simp only [Polyhedron.geom, Prod.mk.injEq] at h
  obtain ⟨h1, h2, h3⟩ := h
  subst h1; subst h2; subst h3
  rfl

theorem ambo_geom_clamp (p : Polyhedron) (r : ℚ) (cn : Bool) :
    (p.ambo (some r) cn).geom = (p.ambo (some (clamped01 r)) cn).geom := by
  simp only [Polyhedron.ambo, clamped01_idem]
  rfl

theorem chamfer_geom_clamp (p : Polyhedron) (r : ℚ) (cn : Bool) :
    (p.chamfer (some r) cn).geom = (p.chamfer (some (clamped01 r)) cn).geom := by
  simp only [Polyhedron.chamfer, clamped01_idem]
  rfl

theorem gyro_geom_clamp (p : Polyhedron) (r : ℚ) (h : Option ℚ) (cn : Bool) :
    (p.gyro (some r) h cn).geom = (p.gyro (some (clamped01 r)) h cn).geom := by
  simp only [Polyhedron.gyro, clamped01_idem]
  rfl

theorem propellor_geom_clamp (p : Polyhedron) (r : ℚ) (cn : Bool) :
    (p.propellor (some r) cn).geom = (p.propellor (some (clamped01 r)) cn).geom := by
  simp only [Polyhedron.propellor, clamped01_idem]
  rfl

theorem whirl_geom_clamp (p : Polyhedron) (r : ℚ) (h : Option ℚ) (cn : Bool) :
    (p.whirl (some r) h cn).geom = (p.whirl (some (clamped01 r)) h cn).geom := by
  simp only [Polyhedron.whirl, clamped01_idem]
  rfl

theorem join_geom_clamp (p : Polyhedron) (r : ℚ) (cn : Bool) :
    (p.join (some r) cn).geom = (p.join (some (clamped01 r)) cn).geom := by
  have h1 : (p.join (some r) cn).geom
      = (((p.dual false).ambo (some r) false).dual false).geom := rfl
  have h2 : (p.join (some (clamped01 r)) cn).geom
      = (((p.dual false).ambo (some (clamped01 r)) false).dual false).geom := rfl
  rw [h1, h2]
  exact dual_geom_congr (ambo_geom_clamp (p.dual false) r false) false false

/-- Claim C9: `ambo`, `chamfer`, `gyro`, `propellor` and `whirl` clamp a
supplied ratio to `[0, 1]` before use, and so do the derived operators that
forward a ratio to them (`expand`, `ortho`, `join`, `bevel`, `medial`,
`meta`, `snub`); a negative `quinto` height is clamped to `0`; and the
heights of `kis`, `gyro` and `whirl` are used exactly as supplied, unclamped
(the new points are built with the raw `h`).  The equalities are stated on
`geom` — points, faces and face sets — because the emitted *name* records
the raw parameter. -/
theorem C9_parameter_clamping (p : Polyhedron) (r hq : ℚ) (h : Option ℚ)
    (fa vv : Option (List ℕ)) (rfo cn : Bool) :
    (p.ambo (some r) cn).geom = (p.ambo (some (clamped01 r)) cn).geom ∧
    (p.chamfer (some r) cn).geom = (p.chamfer (some (clamped01 r)) cn).geom ∧
    (p.gyro (some r) h cn).geom = (p.gyro (some (clamped01 r)) h cn).geom ∧
    (p.propellor (some r) cn).geom = (p.propellor (some (clamped01 r)) cn).geom ∧
    (p.whirl (some r) h cn).geom = (p.whirl (some (clamped01 r)) h cn).geom ∧
    (p.expand (some r) cn).geom = (p.expand (some (clamped01 r)) cn).geom ∧
    (p.ortho (some r) cn).geom = (p.ortho (some (clamped01 r)) cn).geom ∧
    (p.join (some r) cn).geom = (p.join (some (clamped01 r)) cn).geom ∧
    (p.bevel (some r) h vv rfo cn).geom = (p.bevel (some (clamped01 r)) h vv rfo cn).geom ∧
    (p.medial (some r) h vv rfo cn).geom = (p.medial (some (clamped01 r)) h vv rfo cn).geom ∧
    (p.meta (some r) h vv rfo cn).geom = (p.meta (some (clamped01 r)) h vv rfo cn).geom ∧
    (p.snub (some r) h cn).geom = (p.snub (some (clamped01 r)) h cn).geom ∧
    (p.quinto (some hq) cn).geom = (p.quinto (some (if hq < 0 then 0 else hq)) cn).geom ∧
    ((p.kis (some hq) fa rfo cn).points
      = p.points ++ (kis_selected p fa rfo).map (fun face =>
          padd (centroid (as_points face p.points))
               (psmul ((hq : ℚ) : ℝ) (face_normal (as_points face p.points))))) ∧
    ((p.gyro h (some hq) cn).points
      = p.points
        ++ (p.face_index.map (fun face =>
              padd (pnormalized (centroid (as_points face p.points)))
                   (psmul ((hq : ℚ) : ℝ) (face_normal (as_points face p.points))))
          ++ p.to_edges.flatMap (fun edge =>
              [padd (p.points.getD edge.1 pzero)
                    (psmul (((match h with | some x => clamped01 x | none => 1 / 3) : ℚ) : ℝ)
                           (psub (p.points.getD edge.2 pzero) (p.points.getD edge.1 pzero))),
               padd (p.points.getD edge.2 pzero)
                    (psmul (((match h with | some x => clamped01 x | none => 1 / 3) : ℚ) : ℝ)
                           (psub (p.points.getD edge.1 pzero) (p.points.getD edge.2 pzero)))]))) ∧
    ((p.whirl h (some hq) cn).points
      = p.points
        ++ (p.face_index.flatMap (fun face =>
             (List.range face.length).map (fun j =>
               padd (padd ((as_points face p.points).getD j pzero)
                      (psmul (((match h with | some x => clamped01 x | none => 1 / 3) : ℚ) : ℝ)
                        (psub ((as_points face p.points).getD ((j + 1) % face.length) pzero)
                              ((as_points face p.points).getD j pzero))))
                 (psmul (((match h with | some x => clamped01 x | none => 1 / 3) : ℚ) : ℝ)
                   (psub (padd (centroid (as_points face p.points))
                           (psmul ((hq : ℚ) : ℝ) (face_normal (as_points face p.points))))
                     (padd ((as_points face p.points).getD j pzero)
                       (psmul (((match h with | some x => clamped01 x | none => 1 / 3) : ℚ) : ℝ)
                         (psub ((as_points face p.points).getD ((j + 1) % face.length) pzero)
                               ((as_points face p.points).getD j pzero))))))))
        ++ p.to_edges.flatMap (fun edge =>
             [padd (p.points.getD edge.1 pzero)
                   (psmul (((match h with | some x => clamped01 x | none => 1 / 3) : ℚ) : ℝ)
                          (psub (p.points.getD edge.2 pzero) (p.points.getD edge.1 pzero))),
              padd (p.points.getD edge.2 pzero)
                   (psmul (((match h with | some x => clamped01 x | none => 1 / 3) : ℚ) : ℝ)
                          (psub (p.points.getD edge.1 pzero) (p.points.getD edge.2 pzero)))]))) := by
  refine ⟨ambo_geom_clamp p r cn, chamfer_geom_clamp p r cn, gyro_geom_clamp p r h cn,
    propellor_geom_clamp p r cn, whirl_geom_clamp p r h cn, ?_, ?_, join_geom_clamp p r cn,
    ?_, ?_, ?_, ?_, ?_, ?_, ?_, ?_⟩
  · have h1 : (p.expand (some r) cn).geom
        = ((p.ambo (some r) false).ambo (some r) false).geom := rfl
    have h2 : (p.expand (some (clamped01 r)) cn).geom
        = ((p.ambo (some (clamped01 r)) false).ambo (some (clamped01 r)) false).geom := rfl
    rw [h1, h2]
    calc ((p.ambo (some r) false).ambo (some r) false).geom
        = ((p.ambo (some (clamped01 r)) false).ambo (some r) false).geom :=
          ambo_geom_congr (ambo_geom_clamp p r false) (some r) false false
      _ = ((p.ambo (some (clamped01 r)) false).ambo (some (clamped01 r)) false).geom :=
          ambo_geom_clamp (p.ambo (some (clamped01 r)) false) r false
  · have h1 : (p.ortho (some r) cn).geom
        = ((p.join (some r) false).join (some r) false).geom := rfl
    have h2 : (p.ortho (some (clamped01 r)) cn).geom
        = ((p.join (some (clamped01 r)) false).join (some (clamped01 r)) false).geom := rfl
    rw [h1, h2]
    calc ((p.join (some r) false).join (some r) false).geom
        = ((p.join (some (clamped01 r)) false).join (some r) false).geom :=
          join_geom_congr (join_geom_clamp p r false) (some r) false false
      _ = ((p.join (some (clamped01 r)) false).join (some (clamped01 r)) false).geom :=
          join_geom_clamp (p.join (some (clamped01 r)) false) r false
  · exact ambo_geom_clamp (p.truncate h vv rfo false) r false
  · exact ambo_geom_clamp ((p.dual false).truncate h vv rfo false) r false
  · exact join_geom_clamp
      (p.kis h (match vv with | none => some [3] | _ => vv) rfo false) r false
  · have h1 : (p.snub (some r) h cn).geom
        = (((p.dual false).gyro (some r) h false).dual false).geom := rfl
    have h2 : (p.snub (some (clamped01 r)) h cn).geom
        = (((p.dual false).gyro (some (clamped01 r)) h false).dual false).geom := rfl
    rw [h1, h2]
    exact dual_geom_congr (gyro_geom_clamp (p.dual false) r h false) false false
  · simp only [Polyhedron.quinto]
    split_ifs <;> rfl
  · simp only [Polyhedron.kis, vertex_values, List.map_map]
    rfl
  · simp only [Polyhedron.gyro, vertex_values, List.map_append, List.map_map, List.map_flatMap]
    rfl
  · simp only [Polyhedron.whirl, vertex_values, List.map_append, List.map_map, List.map_flatMap]
    rfl

/-- Claim C10: `normals(NormalType::Smooth(angle))` returns the empty vector
for every polyhedron and every angle (smooth normals are unimplemented), and
`normals(NormalType::Flat)` returns one normal per face corner, so its length
is the sum of the face arities. -/
theorem C10_normals (p : Polyhedron) :
    (∀ angle : ℚ, p.normals (NormalType.Smooth angle) = []) ∧
    (p.normals NormalType.Flat).length = (p.face_index.map List.length).sum := by
  constructor
  · intro angle; rfl
  · simp only [Polyhedron.normals, List.length_flatMap, List.length_map, List.length_range]
    refine congrArg List.sum (List.map_congr_left (fun f _ => ?_))
    simp
